import Mathlib

/-!
Shallow embedding of the conversational orchestrator in
`backend/agents/supervisor.py` (class `CanvasGPTSupervisor`).

External collaborators (the LLM classifier, the web agent, the Canvas
agents, the course directory) are modelled as an `Oracle` record of
functions supplied per turn; collaborator calls that the supervisor
wraps in try/except are modelled as `Except`-valued so that the
supervisor's own exception handling is visible.  Turns without a file
attachment are modelled (`file_content=None`); the file-marker branch
of `_route_message`, which fires on message text alone, is embedded in
full.  The Python dict results of collaborator calls are embedded as
records whose `Option` fields distinguish an absent key from a present
one.  `conversation_id` (a CPython object id) is not modelled.
-/

namespace CanvasGPT

/-- Apostrophe character, used to build the string literals of the source. -/
def apos : String := String.mk [Char.ofNat 39]

/-- Char-level scan for an occurrence of `needle`. -/
def containsChars (needle : List Char) : List Char → Bool
  | [] => needle.isEmpty
  | c :: rest => needle.isPrefixOf (c :: rest) || containsChars needle rest

/-- Python `needle in hay` substring test. -/
def containsStr (hay needle : String) : Bool := containsChars needle.data hay.data

/-- Chars of the haystack after the first occurrence of `needle`. -/
def afterChars (needle : List Char) : List Char → Option (List Char)
  | [] => none
  | c :: rest =>
    if needle.isPrefixOf (c :: rest) then some (List.drop needle.length (c :: rest))
    else afterChars needle rest

/-- The text of `hay` after the first occurrence of `needle`, if any
(`hay[hay.find(needle) + len(needle):]` under a `needle in hay` guard). -/
def textAfter (needle hay : String) : Option String :=
  (afterChars needle.data hay.data).map String.mk

/-- `str.lower()` (ASCII case folding, which covers every marker and
token the supervisor compares). -/
def toLowerStr (s : String) : String := String.mk (s.data.map Char.toLower)

/-- `str.isEmpty` test on the underlying chars. -/
def strEmpty (s : String) : Bool := s.data.isEmpty

/-- The text of `hay` from the first occurrence of `needle` on
(`hay[hay.find(needle):]`); only used under a `needle in hay` guard. -/
def fromFirst (needle hay : String) : String :=
  match textAfter needle hay with
  | some rest => needle ++ rest
  | none => hay

/-- Python regex `\s` character class. -/
def isPySpace (c : Char) : Bool :=
  c == ' ' || c == '\t' || c == '\n' || c == '\r' || c == Char.ofNat 11 || c == Char.ofNat 12

/-- `str.strip()`. -/
def trimChars (l : List Char) : List Char :=
  ((l.dropWhile isPySpace).reverse.dropWhile isPySpace).reverse

/-- `str.strip()` on strings. -/
def trimStr (s : String) : String := String.mk (trimChars s.data)

/-- Python slice `s[:n]`. -/
def takeStr (s : String) (n : Nat) : String := String.mk (s.data.take n)

/-- Left-to-right non-overlapping replacement: after a match, `skip`
counts the remaining needle chars to swallow. -/
def replaceGo (needle repl : List Char) : Nat → List Char → List Char
  | _, [] => []
  | Nat.succ k, _ :: rest => replaceGo needle repl k rest
  | 0, c :: rest =>
    if needle.isPrefixOf (c :: rest) then repl ++ replaceGo needle repl (needle.length - 1) rest
    else c :: replaceGo needle repl 0 rest

/-- `str.replace(needle, repl)` for a nonempty needle (the supervisor
only replaces the nonempty `[course]` fragment). -/
def replaceStr (s needle repl : String) : String :=
  if needle.data.isEmpty then s else String.mk (replaceGo needle.data repl.data 0 s.data)

/-- `sep.join(parts)`. -/
def joinWith (sep : String) : List String → String
  | [] => ""
  | [s] => s
  | s :: rest => s ++ (sep ++ joinWith sep rest)

/-- Python truthiness of an `Optional[str]` (None and "" are falsy). -/
def truthy : Option String → Bool
  | some s => !(strEmpty s)
  | none => false

/-- Message model of `supervisor.Message` (pydantic); metadata entries are
kept as string pairs, which is all the supervisor stores in them. -/
structure Message where
  content : String
  type : String := "text"
  role : String
  metadata : List (String × String) := []
deriving Repr, DecidableEq

/-- `supervisor.SupervisorState`: the conversation log plus the context map
(`current_agent` is never assigned by the supervisor and is omitted). -/
structure SupervisorState where
  messages : List Message := []
  context : List (String × String) := []
deriving Repr, DecidableEq

/-- Write a key in the context map (Python dict assignment). -/
def ctxSet (ctx : List (String × String)) (k v : String) : List (String × String) :=
  (k, v) :: ctx.filter (fun p => p.1 != k)

/-- Read a key from the context map (Python `dict.get`). -/
def ctxGet (ctx : List (String × String)) (k : String) : Option String :=
  (ctx.find? (fun p => p.1 == k)).map Prod.snd

/-- The dict stored in `self.pending_quiz`. -/
structure PendingQuiz where
  course_name : String
  content : String
  title : String
deriving Repr, DecidableEq

/-- The dict stored in `self.pending_announcement`; `none` in the file
fields means the key is absent. -/
structure PendingAnnouncement where
  course_name : String
  content : String
  title : String
  file_content : Option String := none
  filename : Option String := none
deriving Repr, DecidableEq

/-- The dict stored in `self.pending_assignment`. -/
structure PendingAssignment where
  course_name : String
  content : String
  title : String
  points : Nat
  submission_types : List String
  file_content : Option String := none
  file_name : Option String := none
deriving Repr, DecidableEq

/-- The dict stored in `self.pending_page`. -/
structure PendingPage where
  course_name : String
  content : String
  title : String
deriving Repr, DecidableEq

/-- The supervisor object: configuration flag, conversation state, and the
four parallel pending-action slots of `CanvasGPTSupervisor.__init__`. -/
structure Supervisor where
  hasCanvasAgent : Bool
  state : SupervisorState := {}
  pending_quiz : Option PendingQuiz := none
  pending_announcement : Option PendingAnnouncement := none
  pending_assignment : Option PendingAssignment := none
  pending_page : Option PendingPage := none
deriving Repr, DecidableEq

/-- Result dict of `CanvasPostAgent.process` (`success` defaulted to False
via `.get`, `message` possibly absent). -/
structure ExecResult where
  success : Bool
  message : Option String := none
deriving Repr, DecidableEq

/-- Result dict of the assignment-agent creation calls: `error` key present
on failure, `file_url` key present when a file was attached. -/
structure AssignResult where
  error : Option String := none
  file_url : Option String := none
deriving Repr, DecidableEq

/-- A course row returned by `list_courses` (`students` possibly absent). -/
structure Course where
  name : String
  code : String
  students : Option Nat := none
deriving Repr, DecidableEq

/-- The `content` argument of `CanvasPostAgent.process`: a plain string or
the dict `{text, file_content, filename}`. -/
inductive CanvasContent
  | text (s : String)
  | withFile (text file_content filename : String)
deriving Repr, DecidableEq

/-- One turn's view of all external collaborators.  Calls that the
supervisor guards with try/except are `Except`-valued: `Except.error e`
models the call raising an exception rendered as `e` by `str`. -/
structure Oracle where
  classify : String → String
  generateTitle : String → String
  webProcess : String → Option String → String
  canvasProcess : CanvasContent → String → Except String ExecResult
  getCourseId : String → Except String (Option String)
  createAssignment : String → String → String → Nat → List String → Except String AssignResult
  fileCreateAssignment : String → String → String → String → String → Nat → List String → Except String AssignResult
  listCourses : List Course
  llmGeneral : String → String

/-- The response dict of `process_message` and the handlers; `error` and
`success` are keys only some paths add. -/
structure Response where
  response : String
  agent : String
  error : Option String := none
  success : Option Bool := none
deriving Repr, DecidableEq

/-- Affirmative confirmation tokens of `process_message`. -/
def affirmativeTokens : List String := ["yes", "post it", "post", "yes post it"]

/-- Negative confirmation tokens of `process_message`. -/
def negativeTokens : List String :=
  ["no", "cancel", "dont post", "don" ++ apos ++ "t post"]

/-- How the confirmation check at the top of `process_message` classifies a
message. -/
inductive ConfirmKind
  | affirmative
  | negative
  | notConfirmation
deriving Repr, DecidableEq

/-- The `message.lower()` membership tests of `process_message` (lines
178-191): the whole lowercased message, with no trimming, against the two
token lists. -/
def classifyConfirmation (message : String) : ConfirmKind :=
  if toLowerStr message ∈ affirmativeTokens then .affirmative
  else if toLowerStr message ∈ negativeTokens then .negative
  else .notConfirmation

/-- Chars of `hay` after the first case-insensitive occurrence of the
(lowercase) `needle`, scanning left to right as `re.search` does. -/
def afterCIAux (needle : List Char) : List Char → Option (List Char)
  | [] => none
  | c :: rest =>
    if needle.isPrefixOf ((c :: rest).map Char.toLower) then
      some ((c :: rest).drop needle.length)
    else afterCIAux needle rest

/-- `_extract_title`: regex `title:\s*([^\n]+)` with IGNORECASE, group
stripped.  An all-whitespace group strips to the empty string, which every
call site treats as missing via Python falsiness; that is folded in here
by returning `none`. -/
def extractTitle (message : String) : Option String :=
  if containsStr (toLowerStr message) "title:" then
    match afterCIAux "title:".toList message.toList with
    | none => none
    | some rest =>
      let rest2 := rest.dropWhile isPySpace
      let line := rest2.takeWhile (fun c => c != '\n')
      let t := trimStr (String.mk line)
      if strEmpty t then none else some t
  else none

/-- Chars strictly between a `[` and the first following `]`, failing on a
newline first (regex `.` does not match `\n`). -/
def bracketInner : List Char → Option (List Char)
  | [] => none
  | c :: rest =>
    if c == ']' then some []
    else if c == '\n' then none
    else (bracketInner rest).map (fun l => c :: l)

/-- `re.search(r'\[(.*?)\]', message)`: leftmost `[` with a matching `]`
on the same line; lazy group up to the first such `]`. -/
def extractCourseAux : List Char → Option (List Char)
  | [] => none
  | c :: rest =>
    if c == '[' then
      match bracketInner rest with
      | some inner => some inner
      | none => extractCourseAux rest
    else extractCourseAux rest

/-- Scope-name extraction shared by the post/quiz/assignment handlers. -/
def extractCourse (message : String) : Option String :=
  (extractCourseAux message.toList).map String.mk

/-- Decimal value of a digit run. -/
def digitsVal (l : List Char) : Nat :=
  l.foldl (fun n c => 10 * n + (c.toNat - 48)) 0

/-- Match a literal at the head of the char list. -/
def dropLit : List Char → List Char → Option (List Char)
  | [], cs => some cs
  | _ :: _, [] => none
  | l :: ls, c :: cs => if c == l then dropLit ls cs else none

/-- Try regex `points\s*should\s*be\s*(\d+)` at this position. -/
def matchPointsAt (cs : List Char) : Option Nat := do
  let cs ← dropLit "points".toList cs
  let cs := cs.dropWhile isPySpace
  let cs ← dropLit "should".toList cs
  let cs := cs.dropWhile isPySpace
  let cs ← dropLit "be".toList cs
  let cs := cs.dropWhile isPySpace
  let digits := cs.takeWhile Char.isDigit
  if digits.isEmpty then none else some (digitsVal digits)

/-- Leftmost match of the points pattern. -/
def searchPointsAux : List Char → Option Nat
  | [] => none
  | c :: rest =>
    match matchPointsAt (c :: rest) with
    | some n => some n
    | none => searchPointsAux rest

/-- Points extraction of `_handle_assignment_request`, defaulting to 100. -/
def extractPoints (message : String) : Nat :=
  (searchPointsAux message.toList).getD 100

/-- Submission-type extraction of `_handle_assignment_request`. -/
def extractSubmissionTypes (message : String) : List String :=
  let ml := toLowerStr message
  if containsStr ml "submission type should be" then
    if containsStr ml "text entry" then ["online_text_entry"]
    else if containsStr ml "file upload" then ["online_upload"]
    else if containsStr ml "url" then ["online_url"]
    else ["online_text_entry"]
  else ["online_text_entry"]

/-- Regex `Assignment:(.*?)(?=$)` with DOTALL, group stripped: everything
after the first `Assignment:` marker (the lookahead admits at most the
final trailing newline, which the strip removes anyway). -/
def extractAssignmentText (message : String) : Option String :=
  (textAfter "Assignment:" message).map trimStr

/-- Python `l[-n:]`. -/
def lastN (n : Nat) (l : List α) : List α := l.drop (l.length - n)

/-- One line of the transcript built by `_get_conversation_context`. -/
def formatMsg (m : Message) : String :=
  if m.role = "user" then "User: " ++ m.content else "Assistant: " ++ m.content

/-- `_get_conversation_context`: empty string on an empty log, else the
context prompt wrapping the two-role transcript of the last 5 messages. -/
def getConversationContext (messages : List Message) (currentMessage : String) : String :=
  if messages.isEmpty then ""
  else
    let conversationContext := joinWith "\n" ((lastN 5 messages).map formatMsg)
    if strEmpty conversationContext then ""
    else
      "\n        Previous conversation:\n        " ++ conversationContext ++
        "\n\n        Current message: " ++ currentMessage ++ "\n        "

/-- `_route_message`: the file-marker branch is decided in code; every
other message goes to the LLM classifier, whose reply is used stripped and
lowercased.  Returns the route together with the updated context map. -/
def routeMessage (o : Oracle) (ctx : List (String × String)) (message : String) :
    String × List (String × String) :=
  let ml := toLowerStr message
  if containsStr ml "with the file uploaded" then
    let ctx :=
      if containsStr ml "create an assignment" || containsStr ml "post assignment" ||
          containsStr ml "assignment where" then ctxSet ctx "post_type" "assignment"
      else if containsStr ml "as a page" then ctxSet ctx "post_type" "page"
      else if containsStr ml "as a quiz" then ctxSet ctx "post_type" "quiz"
      else ctxSet ctx "post_type" "announcement"
    let ctx :=
      if containsStr message "Assignment:" then
        match extractAssignmentText message with
        | some t => ctxSet ctx "assignment_text" t
        | none => ctx
      else ctx
    ((ctxGet ctx "post_type").getD "", ctx)
  else (toLowerStr (trimStr (o.classify message)), ctx)

/-- Canvas-not-configured response text. -/
def canvasNotConfiguredMsg : String :=
  "Canvas is not configured. Please provide Canvas API credentials."

/-- Missing-scope response text. -/
def bracketsMsg : String :=
  "Please specify a course name in square brackets, e.g. [Course Name]"

/-- `str(TypeError)` for subscripting None: rendered when a confirmation
handler runs with its pending slot empty (unreachable from
`process_message`, whose guards test the slot first). -/
def subscriptNoneMsg : String :=
  apos ++ "NoneType" ++ apos ++ " object is not subscriptable"

/-- `str(AttributeError)` for the missing `_handle_page_request` method. -/
def pageHandlerMissingMsg : String :=
  apos ++ "CanvasGPTSupervisor" ++ apos ++ " object has no attribute " ++
    apos ++ "_handle_page_request" ++ apos

/-- `_handle_post_request` on a plain (non-file) turn: requires a
bracketed scope, resolves the title, stages `pending_announcement`. -/
def handlePostRequest (o : Oracle) (sup : Supervisor) (message content : String) :
    Supervisor × Response :=
  if !sup.hasCanvasAgent then
    (sup, { response := canvasNotConfiguredMsg, agent := "canvas_post" })
  else
    match extractCourse message with
    | none => (sup, { response := bracketsMsg, agent := "canvas_post" })
    | some course_name =>
      let title := (extractTitle message).getD (o.generateTitle message)
      let pa : PendingAnnouncement := { course_name, content, title }
      let response :=
        "Here" ++ apos ++ "s the announcement for " ++ course_name ++ ":\n\n" ++
          "Title: " ++ title ++ "\n\n" ++ pa.content ++ "\n\n" ++
          "Would you like me to post this announcement? (Reply with " ++ apos ++ "yes" ++
          apos ++ " to post or " ++ apos ++ "no" ++ apos ++ " to cancel)"
      ({ sup with pending_announcement := some pa },
        { response, agent := "canvas_post" })

/-- `_handle_quiz_request`: requires a bracketed scope, takes inline quiz
text verbatim or asks the web agent, stages `pending_quiz`. -/
def handleQuizRequest (o : Oracle) (sup : Supervisor) (message context : String) :
    Supervisor × Response :=
  if !sup.hasCanvasAgent then
    (sup, { response := canvasNotConfiguredMsg, agent := "canvas_quiz" })
  else
    match extractCourse message with
    | none => (sup, { response := bracketsMsg, agent := "canvas_quiz" })
    | some course_name =>
      let title := (extractTitle message).getD "Quiz"
      let content :=
        if containsStr message "Questions" && containsStr message "(Correct Answer:" then
          fromFirst "Questions" message
        else
          o.webProcess (trimStr (replaceStr message ("[" ++ course_name ++ "]") ""))
            (if strEmpty context then none else some context)
      let response :=
        "I" ++ apos ++ "ve prepared the quiz for " ++ course_name ++ ":\n\n" ++
          "Title: " ++ title ++ "\n\nContent Summary:\n" ++ takeStr content 500 ++ "...\n\n" ++
          "Would you like me to create this quiz? (Reply with " ++ apos ++ "yes" ++ apos ++
          " to create or " ++ apos ++ "no" ++ apos ++ " to cancel)"
      ({ sup with pending_quiz := some { course_name, content, title } },
        { response, agent := "canvas_quiz" })

/-- `_handle_assignment_request` on a plain turn: requires a bracketed
scope and an `Assignment:` marker, parses points and submission types,
stages `pending_assignment`. -/
def handleAssignmentRequest (o : Oracle) (sup : Supervisor) (message content : String) :
    Supervisor × Response :=
  if !sup.hasCanvasAgent then
    (sup, { response := canvasNotConfiguredMsg, agent := "canvas_assignment" })
  else
    match extractCourse message with
    | none => (sup, { response := bracketsMsg, agent := "canvas_assignment" })
    | some course_name =>
      let title := (extractTitle message).getD "Assignment"
      let points := extractPoints message
      let submission_types := extractSubmissionTypes message
      match extractAssignmentText message with
      | none =>
        (sup, { response := "Please include " ++ apos ++ "Assignment:" ++ apos ++
                  " followed by the assignment content.",
                agent := "canvas_assignment" })
      | some assignment_content =>
        let pa : PendingAssignment :=
          { course_name, content := assignment_content, title, points, submission_types }
        let response := joinWith "\n"
          ["I" ++ apos ++ "ve prepared the assignment for " ++ course_name ++ ":",
           "Title: " ++ title,
           "Points: " ++ toString points,
           "Submission Types: " ++ joinWith ", " submission_types,
           "\nWould you like me to create this assignment? (Reply with " ++ apos ++ "yes" ++
             apos ++ " to create or " ++ apos ++ "no" ++ apos ++ " to cancel)"]
        ({ sup with pending_assignment := some pa },
          { response, agent := "canvas_assignment" })

/-- `_handle_list_request`. -/
def handleListRequest (o : Oracle) (sup : Supervisor) : Supervisor × Response :=
  if !sup.hasCanvasAgent then
    (sup, { response := canvasNotConfiguredMsg, agent := "canvas_list" })
  else
    let courses := o.listCourses
    if !courses.isEmpty then
      let course_list := joinWith "\n" (courses.map (fun c =>
        "â€¢ " ++ c.name ++ " (Code: " ++ c.code ++ ")" ++
          (if (c.students.getD 0) != 0 then
            " - " ++ toString (c.students.getD 0) ++ " students" else "")))
      (sup, { response := "Available courses:\n" ++ course_list, agent := "canvas_list" })
    else
      (sup, { response := "No courses found or error retrieving courses.", agent := "canvas_list" })

/-- `_handle_web_search`. -/
def handleWebSearch (o : Oracle) (sup : Supervisor) (message context : String) :
    Supervisor × Response :=
  (sup, { response := o.webProcess message (if strEmpty context then none else some context),
          agent := "web_search" })

/-- `_handle_general_request`. -/
def handleGeneralRequest (o : Oracle) (sup : Supervisor) (message context : String) :
    Supervisor × Response :=
  let prompt :=
    if !(strEmpty context) then
      context ++ "\nPlease provide a response considering the conversation history above."
    else message
  (sup, { response := o.llmGeneral prompt, agent := "general" })

/-- `_handle_quiz_confirmation`: the pending slot is cleared only on the
non-exception paths of the try block. -/
def handleQuizConfirmation (o : Oracle) (sup : Supervisor) : Supervisor × Response :=
  if !sup.hasCanvasAgent then
    (sup, { response := canvasNotConfiguredMsg, agent := "canvas_quiz" })
  else
    match sup.pending_quiz with
    | none =>
      (sup, { response := "Error creating quiz: " ++ subscriptNoneMsg, agent := "canvas_quiz" })
    | some q =>
      match o.canvasProcess (.text q.content)
          ("title: " ++ q.title ++ "\nquiz for [" ++ q.course_name ++ "]") with
      | .ok r =>
        let response :=
          if r.success then "Successfully created quiz in " ++ q.course_name ++ "!"
          else "Failed to create quiz: " ++ (r.message.getD "Unknown error")
        ({ sup with pending_quiz := none }, { response, agent := "canvas_quiz" })
      | .error e =>
        (sup, { response := "Error creating quiz: " ++ e, agent := "canvas_quiz" })

/-- `_handle_announcement_confirmation`: dict payload when both file
fields are truthy; cleared only when the executor returns a result. -/
def handleAnnouncementConfirmation (o : Oracle) (sup : Supervisor) : Supervisor × Response :=
  if !sup.hasCanvasAgent then
    (sup, { response := canvasNotConfiguredMsg, agent := "canvas_post" })
  else
    match sup.pending_announcement with
    | none =>
      (sup, { response := "Error posting announcement: " ++ subscriptNoneMsg,
              agent := "canvas_post" })
    | some a =>
      let payload : CanvasContent :=
        if truthy a.file_content && truthy a.filename then
          .withFile a.content (a.file_content.getD "") (a.filename.getD "")
        else .text a.content
      match o.canvasProcess payload
          ("title: " ++ a.title ++ "\nannouncement for [" ++ a.course_name ++ "]") with
      | .ok r =>
        let response :=
          if r.success then
            "Successfully posted announcement" ++
              (if truthy a.file_content then " with file attachment" else "") ++
              " to " ++ a.course_name ++ "!"
          else "Failed to post announcement: " ++ (r.message.getD "Unknown error")
        ({ sup with pending_announcement := none }, { response, agent := "canvas_post" })
      | .error e =>
        (sup, { response := "Error posting announcement: " ++ e, agent := "canvas_post" })

/-- `_handle_assignment_confirmation`: an unresolvable (falsy) course id
returns early without clearing the slot; exceptions also leave it set;
only a returned result dict clears it. -/
def handleAssignmentConfirmation (o : Oracle) (sup : Supervisor) : Supervisor × Response :=
  if !sup.hasCanvasAgent then
    (sup, { response := canvasNotConfiguredMsg, agent := "canvas_assignment" })
  else
    match sup.pending_assignment with
    | none =>
      (sup, { response := "Error creating assignment: " ++ subscriptNoneMsg,
              agent := "canvas_assignment", success := some false })
    | some a =>
      match o.getCourseId a.course_name with
      | .error e =>
        (sup, { response := "Error creating assignment: " ++ e,
                agent := "canvas_assignment", success := some false })
      | .ok cid? =>
        if !truthy cid? then
          (sup, { response := "Could not find course: " ++ a.course_name,
                  agent := "canvas_assignment" })
        else
          let cid := cid?.getD ""
          let callResult :=
            match a.file_content, a.file_name with
            | some fc, some fn =>
              o.fileCreateAssignment cid fc fn a.title a.content a.points a.submission_types
            | some _, none => Except.error (apos ++ "file_name" ++ apos)
            | none, _ => o.createAssignment cid a.title a.content a.points a.submission_types
          match callResult with
          | .error e =>
            (sup, { response := "Error creating assignment: " ++ e,
                    agent := "canvas_assignment", success := some false })
          | .ok r =>
            let errTruthy := match r.error with | some e => !(strEmpty e) | none => false
            let response :=
              if errTruthy then "Failed to create assignment: " ++ (r.error.getD "")
              else
                "Successfully created assignment in " ++ a.course_name ++ "!" ++
                  (if r.file_url.isSome then "\nFile uploaded and attached to the assignment."
                   else "")
            ({ sup with pending_assignment := none },
              { response, agent := "canvas_assignment", success := some r.error.isNone })

/-- `_handle_page_confirmation` (dead code: `pending_page` is never
staged, see the missing `_handle_page_request`). -/
def handlePageConfirmation (o : Oracle) (sup : Supervisor) : Supervisor × Response :=
  if !sup.hasCanvasAgent then
    (sup, { response := canvasNotConfiguredMsg, agent := "canvas_page" })
  else
    match sup.pending_page with
    | none =>
      (sup, { response := "Error creating page: " ++ subscriptNoneMsg, agent := "canvas_page" })
    | some p =>
      match o.canvasProcess (.text p.content)
          ("page for [" ++ p.course_name ++ "] title: " ++ p.title) with
      | .ok r =>
        let response :=
          if r.success then "Successfully created page in " ++ p.course_name ++ "!"
          else "Failed to create page: " ++ (r.message.getD "Unknown error")
        ({ sup with pending_page := none }, { response, agent := "canvas_page" })
      | .error e =>
        (sup, { response := "Error creating page: " ++ e, agent := "canvas_page" })

/-- `_handle_cancellation`: clears the first non-empty slot in the fixed
order quiz, announcement, assignment, page; never calls a collaborator. -/
def handleCancellation (sup : Supervisor) : Supervisor × Response :=
  if sup.pending_quiz.isSome then
    ({ sup with pending_quiz := none },
      { response := "Quiz creation cancelled.", agent := "canvas_quiz" })
  else if sup.pending_announcement.isSome then
    ({ sup with pending_announcement := none },
      { response := "Announcement cancelled.", agent := "canvas_post" })
  else if sup.pending_assignment.isSome then
    ({ sup with pending_assignment := none },
      { response := "Assignment creation cancelled.", agent := "canvas_assignment" })
  else if sup.pending_page.isSome then
    ({ sup with pending_page := none },
      { response := "Page creation cancelled.", agent := "canvas_page" })
  else
    (sup, { response := "Nothing to cancel.", agent := "general" })

/-- The user message appended at the top of `process_message`. -/
def mkUserMessage (content : String) : Message :=
  { content, role := "user", metadata := [("has_file", "False")] }

/-- The assistant message appended after the route handlers. -/
def mkAssistantMessage (content route : String) : Message :=
  { content, role := "assistant", metadata := [("agent", route)] }

/-- Append a message to the conversation log. -/
def appendMessage (sup : Supervisor) (m : Message) : Supervisor :=
  { sup with state := { sup.state with messages := sup.state.messages ++ [m] } }

/-- Store the handler response in the log and return it. -/
def withAppend : Supervisor × Response → String → Supervisor × Response
  | (sup, r), route => (appendMessage sup (mkAssistantMessage r.response route), r)

/-- Lines 193-277 of `process_message`: route, build context, dispatch.
The `canvas_page` branch raises `AttributeError` (the class has no
`_handle_page_request`), which the outer except turns into the generic
error response; no assistant message is stored on that path. -/
def routeAndDispatch (o : Oracle) (sup : Supervisor) (message : String) :
    Supervisor × Response :=
  let rc := routeMessage o sup.state.context message
  let route := rc.1
  let sup := { sup with state := { sup.state with context := rc.2 } }
  let context := getConversationContext sup.state.messages message
  if route = "canvas_quiz" then withAppend (handleQuizRequest o sup message context) route
  else if route = "canvas_post" then withAppend (handlePostRequest o sup message context) route
  else if route = "canvas_list" then withAppend (handleListRequest o sup) route
  else if route = "canvas_assignment" then
    withAppend (handleAssignmentRequest o sup message context) route
  else if route = "canvas_page" then
    (sup, { response := "Error processing message: " ++ pageHandlerMissingMsg,
            agent := "error",
            error := some ("Error processing message: " ++ pageHandlerMissingMsg) })
  else if route = "web_search" then withAppend (handleWebSearch o sup message context) route
  else withAppend (handleGeneralRequest o sup message context) route

/-- `process_message` on a turn without a file attachment: append the user
message, intercept confirmations and cancellations, otherwise route.  An
affirmative token with all four slots empty falls through to routing. -/
def processMessage (o : Oracle) (sup : Supervisor) (message : String) :
    Supervisor × Response :=
  let sup := appendMessage sup (mkUserMessage message)
  match classifyConfirmation message with
  | .affirmative =>
    if sup.pending_quiz.isSome then handleQuizConfirmation o sup
    else if sup.pending_announcement.isSome then handleAnnouncementConfirmation o sup
    else if sup.pending_assignment.isSome then handleAssignmentConfirmation o sup
    else if sup.pending_page.isSome then handlePageConfirmation o sup
    else routeAndDispatch o sup message
  | .negative => handleCancellation sup
  | .notConfirmation => routeAndDispatch o sup message

/-- A freshly constructed supervisor (`__init__`): empty log, empty
context, all four pending slots `None`. -/
def initSupervisor (hasCanvas : Bool) : Supervisor := { hasCanvasAgent := hasCanvas }

/-- Run a sequence of turns, each with its own collaborator behavior. -/
def runTurns (sup : Supervisor) : List (Oracle × String) → Supervisor
  | [] => sup
  | (o, m) :: rest => runTurns (processMessage o sup m).1 rest

/-- Number of non-empty pending slots. -/
def pendingCount (sup : Supervisor) : Nat :=
  (if sup.pending_quiz.isSome then 1 else 0) +
    (if sup.pending_announcement.isSome then 1 else 0) +
    (if sup.pending_assignment.isSome then 1 else 0) +
    (if sup.pending_page.isSome then 1 else 0)

/-- All four pending slots agree between two supervisor values. -/
def pendingsEq (s t : Supervisor) : Prop :=
  s.pending_quiz = t.pending_quiz ∧ s.pending_announcement = t.pending_announcement ∧
    s.pending_assignment = t.pending_assignment ∧ s.pending_page = t.pending_page

/-- A supervisor with only a quiz staged, for concrete executions. -/
def supQ : Supervisor :=
  { hasCanvasAgent := true,
    pending_quiz := some { course_name := "CS", content := "ct", title := "T" } }

/-- A supervisor with only an announcement staged, for concrete executions. -/
def supA : Supervisor :=
  { hasCanvasAgent := true,
    pending_announcement := some { course_name := "CS", content := "hello", title := "T" } }

/-- A fixed collaborator behavior whose classifier always answers `label`;
used for concrete executions. -/
def constOracle (label : String) : Oracle :=
  { classify := fun _ => label
    generateTitle := fun _ => "Generated Title"
    webProcess := fun _ _ => "web content"
    canvasProcess := fun _ _ => .ok { success := true }
    getCourseId := fun _ => .ok (some "101")
    createAssignment := fun _ _ _ _ _ => .ok {}
    fileCreateAssignment := fun _ _ _ _ _ _ _ => .ok {}
    listCourses := []
    llmGeneral := fun _ => "llm reply" }

/-- Like `constOracle`, but the course directory resolves no name. -/
def notFoundOracle : Oracle :=
  { constOracle "general" with getCourseId := fun _ => .ok none }

end CanvasGPT

namespace CanvasGPT

@[simp] theorem appendMessage_pending_quiz (sup : Supervisor) (m : Message) :
    (appendMessage sup m).pending_quiz = sup.pending_quiz := rfl

@[simp] theorem appendMessage_pending_announcement (sup : Supervisor) (m : Message) :
    (appendMessage sup m).pending_announcement = sup.pending_announcement := rfl

@[simp] theorem appendMessage_pending_assignment (sup : Supervisor) (m : Message) :
    (appendMessage sup m).pending_assignment = sup.pending_assignment := rfl

@[simp] theorem appendMessage_pending_page (sup : Supervisor) (m : Message) :
    (appendMessage sup m).pending_page = sup.pending_page := rfl

@[simp] theorem appendMessage_hasCanvasAgent (sup : Supervisor) (m : Message) :
    (appendMessage sup m).hasCanvasAgent = sup.hasCanvasAgent := rfl

@[simp] theorem appendMessage_messages (sup : Supervisor) (m : Message) :
    (appendMessage sup m).state.messages = sup.state.messages ++ [m] := rfl

@[simp] theorem appendMessage_context (sup : Supervisor) (m : Message) :
    (appendMessage sup m).state.context = sup.state.context := rfl

@[simp] theorem pendingCount_appendMessage (sup : Supervisor) (m : Message) :
    pendingCount (appendMessage sup m) = pendingCount sup := rfl

@[simp] theorem withAppend_fst (p : Supervisor × Response) (route : String) :
    (withAppend p route).1 = appendMessage p.1 (mkAssistantMessage p.2.response route) := rfl

@[simp] theorem withAppend_snd (p : Supervisor × Response) (route : String) :
    (withAppend p route).2 = p.2 := rfl

theorem handlePostRequest_shape (o : Oracle) (sup : Supervisor) (message content : String) :
    ∃ x, (handlePostRequest o sup message content).1 = { sup with pending_announcement := x } := by
  unfold handlePostRequest
  repeat' split
  all_goals exact ⟨_, rfl⟩

theorem handleQuizRequest_shape (o : Oracle) (sup : Supervisor) (message context : String) :
    ∃ x, (handleQuizRequest o sup message context).1 = { sup with pending_quiz := x } := by
  unfold handleQuizRequest
  repeat' split
  all_goals exact ⟨_, rfl⟩

theorem handleAssignmentRequest_shape (o : Oracle) (sup : Supervisor) (message content : String) :
    ∃ x, (handleAssignmentRequest o sup message content).1 = { sup with pending_assignment := x } := by
  unfold handleAssignmentRequest
  repeat' split
  all_goals exact ⟨_, rfl⟩

theorem handleListRequest_fst (o : Oracle) (sup : Supervisor) :
    (handleListRequest o sup).1 = sup := by
  simp only [handleListRequest]
  repeat' split
  all_goals rfl

theorem handleWebSearch_fst (o : Oracle) (sup : Supervisor) (message context : String) :
    (handleWebSearch o sup message context).1 = sup := rfl

theorem handleGeneralRequest_fst (o : Oracle) (sup : Supervisor) (message context : String) :
    (handleGeneralRequest o sup message context).1 = sup := rfl

theorem handleQuizConfirmation_shape (o : Oracle) (sup : Supervisor) :
    ∃ x, (handleQuizConfirmation o sup).1 = { sup with pending_quiz := x } := by
  unfold handleQuizConfirmation
  repeat' split
  all_goals exact ⟨_, rfl⟩

theorem handleAnnouncementConfirmation_shape (o : Oracle) (sup : Supervisor) :
    ∃ x, (handleAnnouncementConfirmation o sup).1 = { sup with pending_announcement := x } := by
  simp only [handleAnnouncementConfirmation]
  repeat' split
  all_goals exact ⟨_, rfl⟩

theorem handleAssignmentConfirmation_shape (o : Oracle) (sup : Supervisor) :
    ∃ x, (handleAssignmentConfirmation o sup).1 = { sup with pending_assignment := x } := by
  simp only [handleAssignmentConfirmation]
  repeat' split
  all_goals exact ⟨_, rfl⟩

theorem handlePageConfirmation_shape (o : Oracle) (sup : Supervisor) :
    ∃ x, (handlePageConfirmation o sup).1 = { sup with pending_page := x } := by
  unfold handlePageConfirmation
  repeat' split
  all_goals exact ⟨_, rfl⟩

theorem handleCancellation_state (sup : Supervisor) :
    (handleCancellation sup).1.state = sup.state := by
  unfold handleCancellation
  repeat' split
  all_goals rfl

theorem pendingCount_le_one_quiz (sup : Supervisor) (x : Option PendingQuiz)
    (ha : sup.pending_announcement = none) (hs : sup.pending_assignment = none)
    (hp : sup.pending_page = none) :
    pendingCount { sup with pending_quiz := x } <= 1 := by
  cases x <;> simp [pendingCount, ha, hs, hp]

theorem pendingCount_le_one_announcement (sup : Supervisor) (x : Option PendingAnnouncement)
    (hq : sup.pending_quiz = none) (hs : sup.pending_assignment = none)
    (hp : sup.pending_page = none) :
    pendingCount { sup with pending_announcement := x } <= 1 := by
  cases x <;> simp [pendingCount, hq, hs, hp]

theorem pendingCount_le_one_assignment (sup : Supervisor) (x : Option PendingAssignment)
    (hq : sup.pending_quiz = none) (ha : sup.pending_announcement = none)
    (hp : sup.pending_page = none) :
    pendingCount { sup with pending_assignment := x } <= 1 := by
  cases x <;> simp [pendingCount, hq, ha, hp]

theorem routeAndDispatch_count (o : Oracle) (sup : Supervisor) (m : String)
    (hq : sup.pending_quiz = none) (ha : sup.pending_announcement = none)
    (hs : sup.pending_assignment = none) (hp : sup.pending_page = none) :
    pendingCount (routeAndDispatch o sup m).1 <= 1 := by
  simp only [routeAndDispatch]
  split
  · rw [withAppend_fst, pendingCount_appendMessage]
    rcases handleQuizRequest_shape o _ m _ with ⟨x, hx⟩
    rw [hx]
    exact pendingCount_le_one_quiz _ x ha hs hp
  · split
    · rw [withAppend_fst, pendingCount_appendMessage]
      rcases handlePostRequest_shape o _ m _ with ⟨x, hx⟩
      rw [hx]
      exact pendingCount_le_one_announcement _ x hq hs hp
    · split
      · rw [withAppend_fst, pendingCount_appendMessage, handleListRequest_fst]
        simp [pendingCount, hq, ha, hs, hp]
      · split
        · rw [withAppend_fst, pendingCount_appendMessage]
          rcases handleAssignmentRequest_shape o _ m _ with ⟨x, hx⟩
          rw [hx]
          exact pendingCount_le_one_assignment _ x hq ha hp
        · split
          · simp [pendingCount, hq, ha, hs, hp]
          · split
            · rw [withAppend_fst, pendingCount_appendMessage, handleWebSearch_fst]
              simp [pendingCount, hq, ha, hs, hp]
            · rw [withAppend_fst, pendingCount_appendMessage, handleGeneralRequest_fst]
              simp [pendingCount, hq, ha, hs, hp]

theorem handleCancellation_none (sup : Supervisor)
    (hq : sup.pending_quiz = none) (ha : sup.pending_announcement = none)
    (hs : sup.pending_assignment = none) (hp : sup.pending_page = none) :
    handleCancellation sup = (sup, { response := "Nothing to cancel.", agent := "general" }) := by
  unfold handleCancellation
  simp [hq, ha, hs, hp]

end CanvasGPT

namespace CanvasGPT

/-- Claim C1 (amended): starting from a state with no pending action, a
single `process_message` call leaves at most one of the four pending
slots non-empty; the original claim, that at most one slot is non-empty
after ANY sequence of calls, fails because a staging handler assigns
only its own slot and never clears the other three (see
`c1_counterexample`). -/
theorem c1_single_call_bound (o : Oracle) (sup : Supervisor) (msg : String)
    (hq : sup.pending_quiz = none) (ha : sup.pending_announcement = none)
    (hs : sup.pending_assignment = none) (hp : sup.pending_page = none) :
    pendingCount (processMessage o sup msg).1 <= 1 := by
  simp only [processMessage]
  split
  · simp only [appendMessage_pending_quiz, appendMessage_pending_announcement,
      appendMessage_pending_assignment, appendMessage_pending_page, hq, ha, hs, hp,
      Option.isSome_none, Bool.false_eq_true, if_false]
    exact routeAndDispatch_count o _ msg (by simp [hq]) (by simp [ha]) (by simp [hs]) (by simp [hp])
  · rw [handleCancellation_none _ (by simp [hq]) (by simp [ha]) (by simp [hs]) (by simp [hp])]
    simp [pendingCount, hq, ha, hs, hp]
  · exact routeAndDispatch_count o _ msg (by simp [hq]) (by simp [ha]) (by simp [hs]) (by simp [hp])

/-- Claim C1 counterexample: staging a quiz and then staging an
announcement (two ordinary `process_message` calls from a fresh session)
leaves TWO pending slots non-empty at once, refuting the invariant as
stated. -/
theorem c1_counterexample :
    pendingCount (runTurns (initSupervisor true)
      [(constOracle "canvas_quiz", "create a quiz [CS] about recursion"),
       (constOracle "canvas_post", "post the reading list [CS]")]) = 2 := by
  rfl

/-- Witness for `c1_single_call_bound` at a concrete input. -/
theorem c1_witness :
    pendingCount (processMessage (constOracle "general") (initSupervisor true) "hello").1 <= 1 :=
  c1_single_call_bound (constOracle "general") (initSupervisor true) "hello" rfl rfl rfl rfl

end CanvasGPT

namespace CanvasGPT

/-- Claim C2 (amended): an affirmative confirmation clears the pending
action exactly when the executor call completes with a result (success or
failure alike); when the executor raises, or when the scope name cannot
be resolved to a course id (`not_found`), the early return skips the
clearing assignment and the pending action survives the turn (see
`c2_counterexample`). -/
theorem c2_confirmation_clearing :
    (∀ (o : Oracle) (sup : Supervisor) (q : PendingQuiz) (msg : String),
      classifyConfirmation msg = .affirmative →
      sup.hasCanvasAgent = true →
      sup.pending_quiz = some q →
      (processMessage o sup msg).1.pending_quiz =
        (match o.canvasProcess (.text q.content)
            ("title: " ++ q.title ++ "\nquiz for [" ++ q.course_name ++ "]") with
         | .ok _ => none
         | .error _ => some q))
    ∧ (∀ (o : Oracle) (sup : Supervisor) (a : PendingAssignment) (msg : String),
      classifyConfirmation msg = .affirmative →
      sup.hasCanvasAgent = true →
      sup.pending_quiz = none →
      sup.pending_announcement = none →
      sup.pending_assignment = some a →
      o.getCourseId a.course_name = .ok none →
      (processMessage o sup msg).1.pending_assignment = some a
      ∧ (processMessage o sup msg).2.response = "Could not find course: " ++ a.course_name) := by
  constructor
  · intro o sup q msg hmsg hcv hq
    simp only [processMessage, hmsg, appendMessage_pending_quiz, hq, Option.isSome_some, if_true]
    simp only [handleQuizConfirmation, appendMessage_hasCanvasAgent, hcv,
      appendMessage_pending_quiz, hq, Bool.not_true, Bool.false_eq_true, if_false]
    cases hc : o.canvasProcess (.text q.content)
        ("title: " ++ q.title ++ "\nquiz for [" ++ q.course_name ++ "]") <;>
      simp [hc, hq]
  · intro o sup a msg hmsg hcv hq ha hs hcid
    simp only [processMessage, hmsg, appendMessage_pending_quiz, appendMessage_pending_announcement,
      appendMessage_pending_assignment, hq, ha, hs, Option.isSome_none, Option.isSome_some,
      Bool.false_eq_true, if_false, if_true]
    simp only [handleAssignmentConfirmation, appendMessage_hasCanvasAgent, hcv,
      appendMessage_pending_assignment, hs, Bool.not_true, Bool.false_eq_true, if_false, hcid]
    simp [truthy, hs]

/-- Claim C2 counterexample: stage an assignment, then confirm with "yes"
while the course directory fails to resolve the scope name: the turn
reports the error but the pending assignment is NOT cleared, refuting
"always clears ... or the scope name cannot be resolved". -/
theorem c2_counterexample :
    (processMessage notFoundOracle
        (processMessage (constOracle "canvas_assignment") (initSupervisor true)
          "create an assignment [CS] Assignment: Do problem set 1").1
        "yes").1.pending_assignment.isSome = true
    ∧ (processMessage notFoundOracle
        (processMessage (constOracle "canvas_assignment") (initSupervisor true)
          "create an assignment [CS] Assignment: Do problem set 1").1
        "yes").2.response = "Could not find course: CS" :=
  ⟨rfl, rfl⟩

/-- Witness for `c2_confirmation_clearing` at a concrete input. -/
theorem c2_witness :
    (processMessage (constOracle "general") supQ "yes").1.pending_quiz = none :=
  c2_confirmation_clearing.1 (constOracle "general") supQ
    { course_name := "CS", content := "ct", title := "T" } "yes" (by decide) rfl rfl

/-- Claim C3 (amended): with no pending action, a NEGATIVE confirmation
token yields the neutral "Nothing to cancel." response, creates no pending
action, and (being oracle-free) runs no handler or executor; an
AFFIRMATIVE token, however, does not short-circuit: it falls through to
intent routing and is processed like any ordinary message (see
`c3_counterexample`). -/
theorem c3_idle_confirmations (o : Oracle) (sup : Supervisor) (msg : String)
    (hq : sup.pending_quiz = none) (ha : sup.pending_announcement = none)
    (hs : sup.pending_assignment = none) (hp : sup.pending_page = none) :
    (classifyConfirmation msg = .negative →
      processMessage o sup msg =
        (appendMessage sup (mkUserMessage msg),
          { response := "Nothing to cancel.", agent := "general" }))
    ∧ (classifyConfirmation msg = .affirmative →
      processMessage o sup msg = routeAndDispatch o (appendMessage sup (mkUserMessage msg)) msg) := by
  constructor
  · intro h
    simp only [processMessage, h]
    exact handleCancellation_none _ (by simp [hq]) (by simp [ha]) (by simp [hs]) (by simp [hp])
  · intro h
    simp only [processMessage, h, appendMessage_pending_quiz, appendMessage_pending_announcement,
      appendMessage_pending_assignment, appendMessage_pending_page, hq, ha, hs, hp,
      Option.isSome_none, Bool.false_eq_true, if_false]

/-- Claim C3 counterexample: "yes" with nothing pending is NOT answered
with a neutral "nothing to do" response: it is routed, the general handler
runs, the LLM collaborator output becomes the response, and an assistant
message is appended (two log entries for the turn). -/
theorem c3_counterexample :
    (processMessage (constOracle "general") (initSupervisor true) "yes").2.agent = "general"
    ∧ (processMessage (constOracle "general") (initSupervisor true) "yes").2.response = "llm reply"
    ∧ (processMessage (constOracle "general") (initSupervisor true) "yes").1.state.messages.length = 2 :=
  ⟨rfl, rfl, rfl⟩

/-- Witness for `c3_idle_confirmations` at a concrete input. -/
theorem c3_witness :
    processMessage (constOracle "general") (initSupervisor true) "no" =
      (appendMessage (initSupervisor true) (mkUserMessage "no"),
        { response := "Nothing to cancel.", agent := "general" }) :=
  (c3_idle_confirmations (constOracle "general") (initSupervisor true) "no"
    rfl rfl rfl rfl).1 (by decide)

/-- Claim C4 (confirmed): a negative token with a staged announcement (and
no staged quiz, which the cancellation chain checks first) clears exactly
the announcement slot, answers "Announcement cancelled.", leaves the other
pending slots and the context map unchanged, appends only the inbound user
message to the log, and consults no collaborator at all: the turn result
is independent of the oracle, so the ActionExecutor is never invoked. -/
theorem c4_cancellation (o : Oracle) (sup : Supervisor) (a : PendingAnnouncement) (msg : String)
    (hneg : classifyConfirmation msg = .negative)
    (hq : sup.pending_quiz = none)
    (ha : sup.pending_announcement = some a) :
    (processMessage o sup msg).2.response = "Announcement cancelled."
    ∧ (processMessage o sup msg).2.agent = "canvas_post"
    ∧ (processMessage o sup msg).1.pending_announcement = none
    ∧ (processMessage o sup msg).1.pending_quiz = sup.pending_quiz
    ∧ (processMessage o sup msg).1.pending_assignment = sup.pending_assignment
    ∧ (processMessage o sup msg).1.pending_page = sup.pending_page
    ∧ (processMessage o sup msg).1.state.context = sup.state.context
    ∧ (processMessage o sup msg).1.state.messages = sup.state.messages ++ [mkUserMessage msg]
    ∧ ∀ o2 : Oracle, processMessage o2 sup msg = processMessage o sup msg := by
  have hred : ∀ o3 : Oracle, processMessage o3 sup msg =
      ({ appendMessage sup (mkUserMessage msg) with pending_announcement := none },
        { response := "Announcement cancelled.", agent := "canvas_post" }) := by
    intro o3
    simp only [processMessage, hneg, handleCancellation, appendMessage_pending_quiz,
      appendMessage_pending_announcement, hq, ha, Option.isSome_none, Option.isSome_some,
      Bool.false_eq_true, if_false, if_true]
  rw [hred o]
  exact ⟨rfl, rfl, rfl, rfl, rfl, rfl, rfl, rfl, fun o2 => hred o2⟩

/-- Witness for `c4_cancellation` at a concrete input. -/
theorem c4_witness :
    (processMessage (constOracle "general") supA "no").2.response = "Announcement cancelled."
    ∧ (processMessage (constOracle "general") supA "no").1.pending_announcement = none := by
  have h := c4_cancellation (constOracle "general") supA
    { course_name := "CS", content := "hello", title := "T" } "no" (by decide) rfl rfl
  exact ⟨h.1, h.2.2.1⟩

end CanvasGPT

namespace CanvasGPT

theorem find?_filter_ne (k k2 : String) (h : k ≠ k2) (ctx : List (String × String)) :
    List.find? (fun p => p.1 == k) (ctx.filter (fun p => p.1 != k2)) =
      List.find? (fun p => p.1 == k) ctx := by
  induction ctx with
  | nil => rfl
  | cons p t ih =>
    by_cases hpk : p.1 = k
    · have h2 : (p.1 != k2) = true := by simp [hpk, h]
      have h3 : (p.1 == k) = true := by simp [hpk]
      simp [List.filter_cons, h2, List.find?_cons, h3]
    · have h3 : (p.1 == k) = false := by simp [hpk]
      by_cases hpk2 : p.1 = k2
      · have h4 : (p.1 != k2) = false := by simp [hpk2]
        simp [List.filter_cons, h4, List.find?_cons, h3, ih]
      · have h4 : (p.1 != k2) = true := by simp [hpk2]
        simp [List.filter_cons, h4, List.find?_cons, h3, ih]

theorem ctxGet_set_self (ctx : List (String × String)) (k v : String) :
    ctxGet (ctxSet ctx k v) k = some v := by
  simp [ctxGet, ctxSet, List.find?_cons]

theorem ctxGet_set_ne (ctx : List (String × String)) (k k2 v : String) (h : k ≠ k2) :
    ctxGet (ctxSet ctx k2 v) k = ctxGet ctx k := by
  have hne : (k2 == k) = false := by simp [Ne.symm h]
  simp [ctxGet, ctxSet, List.find?_cons, hne, find?_filter_ne k k2 h]

theorem routeMessage_classifier (o : Oracle) (ctx : List (String × String)) (msg : String)
    (h : containsStr (toLowerStr msg) "with the file uploaded" = false) :
    routeMessage o ctx msg = (toLowerStr (trimStr (o.classify msg)), ctx) := by
  simp only [routeMessage, h, Bool.false_eq_true, if_false]

/-- Claim C5 (amended): the confirmation check compares the ENTIRE
lowercased message, with NO whitespace trimming, against the closed token
sets: a longer message merely containing a token as a substring is never
a confirmation, but neither is a token surrounded by whitespace (see
`c5_counterexample`); any non-token message falls through to ordinary
intent routing. -/
theorem c5_token_match (o : Oracle) (sup : Supervisor) (msg : String) :
    (classifyConfirmation msg = .affirmative ↔ toLowerStr msg ∈ affirmativeTokens)
    ∧ (classifyConfirmation msg = .negative ↔
        toLowerStr msg ∉ affirmativeTokens ∧ toLowerStr msg ∈ negativeTokens)
    ∧ (classifyConfirmation msg = .notConfirmation →
        processMessage o sup msg = routeAndDispatch o (appendMessage sup (mkUserMessage msg)) msg) := by
  refine ⟨?_, ?_, ?_⟩
  · unfold classifyConfirmation
    split_ifs with h1 h2 <;> simp [*]
  · unfold classifyConfirmation
    split_ifs with h1 h2 <;> simp [*]
  · intro h
    simp only [processMessage, h]

/-- Claim C5 counterexample: " yes" (leading space) trims to the
affirmative token "yes", yet the controller does not treat it as a
confirmation: with an announcement staged, the turn is routed to the
general handler and the pending announcement survives, refuting the
"entire trimmed message" reading. -/
theorem c5_counterexample :
    classifyConfirmation " yes" = .notConfirmation
    ∧ toLowerStr (trimStr " yes") ∈ affirmativeTokens
    ∧ (processMessage (constOracle "general") supA " yes").1.pending_announcement.isSome = true
    ∧ (processMessage (constOracle "general") supA " yes").2.agent = "general" := by
  exact ⟨rfl, by decide, rfl, rfl⟩

/-- Witness for `c5_token_match` at concrete inputs. -/
theorem c5_witness :
    classifyConfirmation "Post It" = .affirmative ∧ classifyConfirmation "Cancel" = .negative :=
  ⟨(c5_token_match (constOracle "general") (initSupervisor true) "Post It").1.mpr (by decide),
   (c5_token_match (constOracle "general") (initSupervisor true) "Cancel").2.1.mpr (by decide)⟩

/-- Claim C6 (amended): the only deterministic pre-filter in the router is
the file-upload branch, triggered by the literal marker "with the file
uploaded" in the message (and checked in the order assignment, page,
quiz, announcement); every other message is delegated to the external
classifier, whose stripped lowercased reply IS the routing result.  The
spec's page > assignment > quiz > list > URL > post priority order exists
only as prompt text for the classifier, so a message with both a URL and
a quiz marker is routed wherever the classifier says, not necessarily to
quiz (see `c6_counterexample`). -/
theorem c6_router (o : Oracle) (ctx : List (String × String)) (msg : String) :
    (containsStr (toLowerStr msg) "with the file uploaded" = false →
      routeMessage o ctx msg = (toLowerStr (trimStr (o.classify msg)), ctx))
    ∧ (containsStr (toLowerStr msg) "with the file uploaded" = true →
       containsStr (toLowerStr msg) "create an assignment" = true →
       (routeMessage o ctx msg).1 = "assignment") := by
  constructor
  · exact routeMessage_classifier o ctx msg
  · intro h1 h2
    simp only [routeMessage, h1, h2, if_true, Bool.true_or, true_or]
    split
    · split
      · rw [ctxGet_set_ne _ _ _ _ (by decide), ctxGet_set_self]
        rfl
      · rw [ctxGet_set_self]
        rfl
    · rw [ctxGet_set_self]
      rfl

/-- Claim C6 counterexample: the same message, containing both a URL and
the quiz marker "create a quiz", is routed to whatever label the external
classifier returns — web_search under one classifier, canvas_quiz under
another — so the deterministic quiz-over-URL priority does not exist in
the code. -/
theorem c6_counterexample :
    (routeMessage (constOracle "web_search") [] "create a quiz about https://example.com [CS]").1
      = "web_search"
    ∧ (routeMessage (constOracle "canvas_quiz") [] "create a quiz about https://example.com [CS]").1
      = "canvas_quiz" :=
  ⟨rfl, rfl⟩

/-- Witness for `c6_router` at a concrete input. -/
theorem c6_witness :
    routeMessage (constOracle " General ") [] "hello there" = ("general", []) :=
  (c6_router (constOracle " General ") [] "hello there").1 (by decide)

end CanvasGPT

namespace CanvasGPT

/-- Claim C7 (amended): for post, quiz and assignment intents (with Canvas
configured), a message without a bracketed scope name is answered with
the immediate "Please specify a course name in square brackets" error and
no pending slot changes; a PAGE intent cannot produce that error: its
handler does not exist, so such a turn ends in the generic internal error
response instead — though still with no pending action created (see
`c7_counterexample`). -/
theorem c7_missing_scope (o : Oracle) (sup : Supervisor) (msg : String)
    (hcv : sup.hasCanvasAgent = true)
    (hconf : classifyConfirmation msg = .notConfirmation)
    (hfile : containsStr (toLowerStr msg) "with the file uploaded" = false)
    (hcourse : extractCourse msg = none) :
    (toLowerStr (trimStr (o.classify msg)) = "canvas_post" →
      (processMessage o sup msg).2.response = bracketsMsg
      ∧ pendingsEq (processMessage o sup msg).1 sup)
    ∧ (toLowerStr (trimStr (o.classify msg)) = "canvas_quiz" →
      (processMessage o sup msg).2.response = bracketsMsg
      ∧ pendingsEq (processMessage o sup msg).1 sup)
    ∧ (toLowerStr (trimStr (o.classify msg)) = "canvas_assignment" →
      (processMessage o sup msg).2.response = bracketsMsg
      ∧ pendingsEq (processMessage o sup msg).1 sup)
    ∧ (toLowerStr (trimStr (o.classify msg)) = "canvas_page" →
      (processMessage o sup msg).2.agent = "error"
      ∧ pendingsEq (processMessage o sup msg).1 sup) := by
  refine ⟨?_, ?_, ?_, ?_⟩ <;> intro hroute <;>
    simp [processMessage, hconf, routeAndDispatch, routeMessage_classifier, hfile, hroute,
      handlePostRequest, handleQuizRequest, handleAssignmentRequest, hcv, hcourse, pendingsEq]

/-- Claim C7 counterexample: a page-intent message with no bracketed scope
is not answered with the square-brackets error: the missing page handler
turns it into the generic processing-error response (and no pending
action is created). -/
theorem c7_counterexample :
    (processMessage (constOracle "canvas_page") (initSupervisor true) "make a page about sorting").2.response
      = "Error processing message: " ++ pageHandlerMissingMsg
    ∧ ("Error processing message: " ++ pageHandlerMissingMsg) ≠ bracketsMsg
    ∧ pendingCount
        (processMessage (constOracle "canvas_page") (initSupervisor true) "make a page about sorting").1 = 0 :=
  ⟨rfl, by decide, rfl⟩

/-- Witness for `c7_missing_scope` at a concrete input. -/
theorem c7_witness :
    (processMessage (constOracle "canvas_post") (initSupervisor true) "post something").2.response
      = bracketsMsg
    ∧ pendingsEq (processMessage (constOracle "canvas_post") (initSupervisor true) "post something").1
        (initSupervisor true) :=
  (c7_missing_scope (constOracle "canvas_post") (initSupervisor true) "post something"
    rfl (by decide) (by decide) rfl).1 rfl

theorem handleQuizConfirmation_state (o : Oracle) (sup : Supervisor) :
    (handleQuizConfirmation o sup).1.state = sup.state := by
  rcases handleQuizConfirmation_shape o sup with ⟨x, hx⟩
  rw [hx]

theorem handleAnnouncementConfirmation_state (o : Oracle) (sup : Supervisor) :
    (handleAnnouncementConfirmation o sup).1.state = sup.state := by
  rcases handleAnnouncementConfirmation_shape o sup with ⟨x, hx⟩
  rw [hx]

theorem handleAssignmentConfirmation_state (o : Oracle) (sup : Supervisor) :
    (handleAssignmentConfirmation o sup).1.state = sup.state := by
  rcases handleAssignmentConfirmation_shape o sup with ⟨x, hx⟩
  rw [hx]

theorem handlePageConfirmation_state (o : Oracle) (sup : Supervisor) :
    (handlePageConfirmation o sup).1.state = sup.state := by
  rcases handlePageConfirmation_shape o sup with ⟨x, hx⟩
  rw [hx]

theorem routeAndDispatch_messages (o : Oracle) (sup : Supervisor) (m : String) :
    (routeAndDispatch o sup m).1.state.messages = sup.state.messages
    ∨ ∃ rt, (routeAndDispatch o sup m).1.state.messages =
        sup.state.messages ++ [mkAssistantMessage (routeAndDispatch o sup m).2.response rt] := by
  simp only [routeAndDispatch]
  split
  · right
    refine ⟨(routeMessage o sup.state.context m).1, ?_⟩
    rcases handleQuizRequest_shape o _ m _ with ⟨x, hx⟩
    rw [withAppend_fst, withAppend_snd, appendMessage_messages, hx]
  · split
    · right
      refine ⟨(routeMessage o sup.state.context m).1, ?_⟩
      rcases handlePostRequest_shape o _ m _ with ⟨x, hx⟩
      rw [withAppend_fst, withAppend_snd, appendMessage_messages, hx]
    · split
      · right
        refine ⟨(routeMessage o sup.state.context m).1, ?_⟩
        rw [withAppend_fst, withAppend_snd, appendMessage_messages, handleListRequest_fst]
      · split
        · right
          refine ⟨(routeMessage o sup.state.context m).1, ?_⟩
          rcases handleAssignmentRequest_shape o _ m _ with ⟨x, hx⟩
          rw [withAppend_fst, withAppend_snd, appendMessage_messages, hx]
        · split
          · left; rfl
          · split
            · right
              refine ⟨(routeMessage o sup.state.context m).1, ?_⟩
              rw [withAppend_fst, withAppend_snd, appendMessage_messages, handleWebSearch_fst]
            · right
              refine ⟨(routeMessage o sup.state.context m).1, ?_⟩
              rw [withAppend_fst, withAppend_snd, appendMessage_messages, handleGeneralRequest_fst]

end CanvasGPT

namespace CanvasGPT

/-- Claim C9 (amended): the inbound user message is appended to the log at
the start of EVERY turn, but the response is appended as an assistant
message only on turns that reach the routing dispatch and do not raise:
confirmation turns with a matching pending slot, cancellation turns, and
the missing-page-handler error turn all return their response without
storing it (see `c9_counterexample`). -/
theorem c9_append_discipline (o : Oracle) (sup : Supervisor) (msg : String) :
    ((processMessage o sup msg).1.state.messages = sup.state.messages ++ [mkUserMessage msg]
      ∨ ∃ rt, (processMessage o sup msg).1.state.messages =
          sup.state.messages ++ [mkUserMessage msg,
            mkAssistantMessage (processMessage o sup msg).2.response rt])
    ∧ (classifyConfirmation msg = .negative →
        (processMessage o sup msg).1.state.messages = sup.state.messages ++ [mkUserMessage msg])
    ∧ (classifyConfirmation msg = .affirmative → sup.pending_quiz.isSome = true →
        (processMessage o sup msg).1.state.messages = sup.state.messages ++ [mkUserMessage msg]) := by
  have hrad : ∀ asup : Supervisor, asup.state.messages = sup.state.messages ++ [mkUserMessage msg] →
      (routeAndDispatch o asup msg).1.state.messages = sup.state.messages ++ [mkUserMessage msg]
      ∨ ∃ rt, (routeAndDispatch o asup msg).1.state.messages =
          sup.state.messages ++ [mkUserMessage msg,
            mkAssistantMessage (routeAndDispatch o asup msg).2.response rt] := by
    intro asup hbase
    rcases routeAndDispatch_messages o asup msg with h | ⟨rt, h⟩
    · left
      rw [h, hbase]
    · right
      refine ⟨rt, ?_⟩
      rw [h, hbase, List.append_assoc]
      rfl
  refine ⟨?_, ?_, ?_⟩
  · simp only [processMessage]
    split
    · split
      · left
        rw [congrArg SupervisorState.messages (handleQuizConfirmation_state o _),
          appendMessage_messages]
      · split
        · left
          rw [congrArg SupervisorState.messages (handleAnnouncementConfirmation_state o _),
            appendMessage_messages]
        · split
          · left
            rw [congrArg SupervisorState.messages (handleAssignmentConfirmation_state o _),
              appendMessage_messages]
          · split
            · left
              rw [congrArg SupervisorState.messages (handlePageConfirmation_state o _),
                appendMessage_messages]
            · exact hrad _ (appendMessage_messages sup (mkUserMessage msg))
    · left
      rw [congrArg SupervisorState.messages (handleCancellation_state _), appendMessage_messages]
    · exact hrad _ (appendMessage_messages sup (mkUserMessage msg))
  · intro h
    simp only [processMessage, h]
    rw [congrArg SupervisorState.messages (handleCancellation_state _), appendMessage_messages]
  · intro h hq
    simp only [processMessage, h, appendMessage_pending_quiz, hq, if_true]
    rw [congrArg SupervisorState.messages (handleQuizConfirmation_state o _), appendMessage_messages]

/-- Claim C9 counterexample: on a cancellation turn the response is NOT
appended to the log: the turn ends with a single (user) log entry while
the "Nothing to cancel." response is only returned. -/
theorem c9_counterexample :
    (processMessage (constOracle "general") (initSupervisor true) "no").2.response
      = "Nothing to cancel."
    ∧ (processMessage (constOracle "general") (initSupervisor true) "no").1.state.messages.map
        Message.role = ["user"] :=
  ⟨rfl, rfl⟩

/-- Witness for `c9_append_discipline` at a concrete input. -/
theorem c9_witness :
    (processMessage (constOracle "general") (initSupervisor true) "no").1.state.messages
      = (initSupervisor true).state.messages ++ [mkUserMessage "no"] :=
  (c9_append_discipline (constOracle "general") (initSupervisor true) "no").2.1 (by decide)

end CanvasGPT

namespace CanvasGPT

theorem handleQuizRequest_agent (o : Oracle) (sup : Supervisor) (message context : String) :
    (handleQuizRequest o sup message context).2.agent = "canvas_quiz" := by
  simp only [handleQuizRequest]
  repeat' split
  all_goals rfl

theorem handlePostRequest_agent (o : Oracle) (sup : Supervisor) (message content : String) :
    (handlePostRequest o sup message content).2.agent = "canvas_post" := by
  simp only [handlePostRequest]
  repeat' split
  all_goals rfl

theorem handleAssignmentRequest_agent (o : Oracle) (sup : Supervisor) (message content : String) :
    (handleAssignmentRequest o sup message content).2.agent = "canvas_assignment" := by
  simp only [handleAssignmentRequest]
  repeat' split
  all_goals rfl

theorem handleListRequest_agent (o : Oracle) (sup : Supervisor) :
    (handleListRequest o sup).2.agent = "canvas_list" := by
  simp only [handleListRequest]
  repeat' split
  all_goals rfl

theorem handleWebSearch_agent (o : Oracle) (sup : Supervisor) (message context : String) :
    (handleWebSearch o sup message context).2.agent = "web_search" := rfl

theorem handleGeneralRequest_agent (o : Oracle) (sup : Supervisor) (message context : String) :
    (handleGeneralRequest o sup message context).2.agent = "general" := rfl

theorem handleQuizConfirmation_agent (o : Oracle) (sup : Supervisor) :
    (handleQuizConfirmation o sup).2.agent = "canvas_quiz" := by
  simp only [handleQuizConfirmation]
  repeat' split
  all_goals rfl

theorem handleAnnouncementConfirmation_agent (o : Oracle) (sup : Supervisor) :
    (handleAnnouncementConfirmation o sup).2.agent = "canvas_post" := by
  simp only [handleAnnouncementConfirmation]
  repeat' split
  all_goals rfl

theorem handleAssignmentConfirmation_agent (o : Oracle) (sup : Supervisor) :
    (handleAssignmentConfirmation o sup).2.agent = "canvas_assignment" := by
  simp only [handleAssignmentConfirmation]
  repeat' split
  all_goals rfl

theorem handleCancellation_pending_page (sup : Supervisor) (hp : sup.pending_page = none) :
    (handleCancellation sup).1.pending_page = none := by
  unfold handleCancellation
  split_ifs <;> first | exact hp | rfl

theorem handleCancellation_agent (sup : Supervisor) (hp : sup.pending_page = none) :
    (handleCancellation sup).2.agent ≠ "canvas_page" := by
  unfold handleCancellation
  split_ifs with h1 h2 h3 h4
  · simp
  · simp
  · simp
  · rw [hp] at h4
    simp at h4
  · simp

theorem routeAndDispatch_pending_page (o : Oracle) (sup : Supervisor) (m : String) :
    (routeAndDispatch o sup m).1.pending_page = sup.pending_page := by
  simp only [routeAndDispatch]
  split
  · rcases handleQuizRequest_shape o _ m _ with ⟨x, hx⟩
    rw [withAppend_fst, appendMessage_pending_page, hx]
  · split
    · rcases handlePostRequest_shape o _ m _ with ⟨x, hx⟩
      rw [withAppend_fst, appendMessage_pending_page, hx]
    · split
      · rw [withAppend_fst, appendMessage_pending_page, handleListRequest_fst]
      · split
        · rcases handleAssignmentRequest_shape o _ m _ with ⟨x, hx⟩
          rw [withAppend_fst, appendMessage_pending_page, hx]
        · split
          · rfl
          · split
            · rw [withAppend_fst, appendMessage_pending_page, handleWebSearch_fst]
            · rw [withAppend_fst, appendMessage_pending_page, handleGeneralRequest_fst]

theorem routeAndDispatch_agent (o : Oracle) (sup : Supervisor) (m : String) :
    (routeAndDispatch o sup m).2.agent ≠ "canvas_page" := by
  simp only [routeAndDispatch]
  split
  · rw [withAppend_snd, handleQuizRequest_agent]; decide
  · split
    · rw [withAppend_snd, handlePostRequest_agent]; decide
    · split
      · rw [withAppend_snd, handleListRequest_agent]; decide
      · split
        · rw [withAppend_snd, handleAssignmentRequest_agent]; decide
        · split
          · simp
          · split
            · rw [withAppend_snd, handleWebSearch_agent]; decide
            · rw [withAppend_snd, handleGeneralRequest_agent]; decide

theorem processMessage_pending_page (o : Oracle) (sup : Supervisor) (m : String)
    (hp : sup.pending_page = none) :
    (processMessage o sup m).1.pending_page = none := by
  simp only [processMessage]
  split
  · split
    · rcases handleQuizConfirmation_shape o _ with ⟨x, hx⟩
      rw [hx]
      exact hp
    · split
      · rcases handleAnnouncementConfirmation_shape o _ with ⟨x, hx⟩
        rw [hx]
        exact hp
      · split
        · rcases handleAssignmentConfirmation_shape o _ with ⟨x, hx⟩
          rw [hx]
          exact hp
        · split
          · rename_i h4
            rw [appendMessage_pending_page, hp] at h4
            simp at h4
          · rw [routeAndDispatch_pending_page, appendMessage_pending_page]
            exact hp
  · exact handleCancellation_pending_page _ (by rw [appendMessage_pending_page]; exact hp)
  · rw [routeAndDispatch_pending_page, appendMessage_pending_page]
    exact hp

theorem processMessage_agent_ne_page (o : Oracle) (sup : Supervisor) (m : String)
    (hp : sup.pending_page = none) :
    (processMessage o sup m).2.agent ≠ "canvas_page" := by
  simp only [processMessage]
  split
  · split
    · rw [handleQuizConfirmation_agent]; decide
    · split
      · rw [handleAnnouncementConfirmation_agent]; decide
      · split
        · rw [handleAssignmentConfirmation_agent]; decide
        · split
          · rename_i h4
            rw [appendMessage_pending_page, hp] at h4
            simp at h4
          · exact routeAndDispatch_agent o _ m
  · exact handleCancellation_agent _ (by rw [appendMessage_pending_page]; exact hp)
  · exact routeAndDispatch_agent o _ m

theorem runTurns_pending_page (turns : List (Oracle × String)) :
    ∀ sup : Supervisor, sup.pending_page = none → (runTurns sup turns).pending_page = none := by
  induction turns with
  | nil => intro sup hp; exact hp
  | cons t rest ih =>
    intro sup hp
    rcases t with ⟨o, m⟩
    exact ih _ (processMessage_pending_page o sup m hp)

/-- Claim C10 (confirmed): `pending_page` is never staged.  (1) From a
fresh session, after any sequence of turns with any collaborator
behavior, `pending_page` is still `None` — the only handler that could
stage it, `_handle_page_request`, does not exist on the class.  (2) A
message routed to the page intent therefore ends in the generic
AttributeError-derived error response, with no pending slot changed.
(3) Consequently the page confirmation and page cancellation branches
are unreachable: no reachable turn ever answers with the
`canvas_page` agent. -/
theorem c10_page_dead :
    (∀ (b : Bool) (turns : List (Oracle × String)),
        (runTurns (initSupervisor b) turns).pending_page = none)
    ∧ (∀ (o : Oracle) (sup : Supervisor) (msg : String),
        classifyConfirmation msg = .notConfirmation →
        containsStr (toLowerStr msg) "with the file uploaded" = false →
        toLowerStr (trimStr (o.classify msg)) = "canvas_page" →
        (processMessage o sup msg).2.response = "Error processing message: " ++ pageHandlerMissingMsg
        ∧ (processMessage o sup msg).2.agent = "error"
        ∧ pendingsEq (processMessage o sup msg).1 sup)
    ∧ (∀ (b : Bool) (turns : List (Oracle × String)) (o : Oracle) (msg : String),
        (processMessage o (runTurns (initSupervisor b) turns) msg).2.agent ≠ "canvas_page") := by
  refine ⟨?_, ?_, ?_⟩
  · intro b turns
    exact runTurns_pending_page turns _ rfl
  · intro o sup msg hconf hfile hroute
    simp [processMessage, hconf, routeAndDispatch, routeMessage_classifier, hfile, hroute,
      pendingsEq]
  · intro b turns o msg
    exact processMessage_agent_ne_page o _ msg (runTurns_pending_page turns _ rfl)

/-- Witness for `c10_page_dead` at concrete inputs. -/
theorem c10_witness :
    (processMessage (constOracle "canvas_page") (initSupervisor true) "turn this into a page").2.agent
      = "error"
    ∧ (runTurns (initSupervisor true)
        [(constOracle "canvas_page", "turn this into a page")]).pending_page = none :=
  ⟨((c10_page_dead.2.1 (constOracle "canvas_page") (initSupervisor true) "turn this into a page"
      (by decide) (by decide) rfl).2.1),
    c10_page_dead.1 true [(constOracle "canvas_page", "turn this into a page")]⟩

end CanvasGPT

namespace CanvasGPT

theorem lastN_eq_nil_iff {α : Type} (n : Nat) (hn : 0 < n) (l : List α) :
    lastN n l = [] ↔ l = [] := by
  unfold lastN
  constructor
  · intro h
    rcases l with _ | ⟨a, t⟩
    · rfl
    · exfalso
      have hlen := congrArg List.length h
      simp [List.length_drop] at hlen
      omega
  · intro h
    subst h
    exact List.drop_nil

/-- Claim C8 (confirmed): the conversation-context window is empty on a
fresh session (no messages), and otherwise is a function of at most the 5
most-recent log entries only: two logs agreeing on their last 5 messages
produce the same formatted two-role transcript. -/
theorem c8_context_window :
    (∀ m : String, getConversationContext [] m = "")
    ∧ (∀ (l1 l2 : List Message) (m : String), lastN 5 l1 = lastN 5 l2 →
        getConversationContext l1 m = getConversationContext l2 m) := by
  constructor
  · intro m
    rfl
  · intro l1 l2 m h
    have h0 : (l1 = []) ↔ (l2 = []) := by
      rw [← lastN_eq_nil_iff 5 (by omega) l1, ← lastN_eq_nil_iff 5 (by omega) l2, h]
    by_cases h1 : l1 = []
    · have h2 := h0.mp h1
      subst h1
      subst h2
      rfl
    · have h2 : l2 ≠ [] := fun he => h1 (h0.mpr he)
      have e1 : l1.isEmpty = false := by
        cases l1 with
        | nil => exact absurd rfl h1
        | cons a t => rfl
      have e2 : l2.isEmpty = false := by
        cases l2 with
        | nil => exact absurd rfl h2
        | cons a t => rfl
      simp only [getConversationContext, e1, e2, Bool.false_eq_true, if_false, h]

/-- Witness for `c8_context_window` at a concrete input: a six-message log
and its five-message tail produce the same context. -/
theorem c8_witness :
    getConversationContext
        [mkUserMessage "m1", mkAssistantMessage "m2" "general", mkUserMessage "m3",
          mkUserMessage "m4", mkUserMessage "m5", mkUserMessage "m6"] "now"
      = getConversationContext
        [mkAssistantMessage "m2" "general", mkUserMessage "m3",
          mkUserMessage "m4", mkUserMessage "m5", mkUserMessage "m6"] "now" :=
  c8_context_window.2
    [mkUserMessage "m1", mkAssistantMessage "m2" "general", mkUserMessage "m3",
      mkUserMessage "m4", mkUserMessage "m5", mkUserMessage "m6"]
    [mkAssistantMessage "m2" "general", mkUserMessage "m3",
      mkUserMessage "m4", mkUserMessage "m5", mkUserMessage "m6"] "now" (by decide)

end CanvasGPT
